import Mathlib

/-!
# Verification of the Archon task-orchestration decision engine

A shallow embedding, in Lean 4, of the decision engine of the Archon
task-management agent:

* `src/python/src/agents/task_agent.py` — domain classification of free
  text, deterministic project/task decomposition templates, project-health
  scoring, and the envelope handling of the remote task-store operations;
* `src/python/src/server/services/agents_service_client.py` — the HTTP
  client for the sibling agents service and its failure envelopes;
* `src/python/tests/test_task_agent_simple.py` — the assignee-selection
  policy (`select_assignee`).

Pure Python functions become Lean functions over `String`, `List` and `ℚ`.
Python floats are IEEE-754 binary64 values, each an exact rational; the
float arithmetic of the health analyzer is modelled by the correct-rounding
function `roundB64 : ℚ → ℚ` applied after every operation.  Stateful code
— the remote calls made inside a loop, the `try`/`except` handlers — is
embedded by passing the sequence of remote outcomes explicitly and
returning the messages and remote calls the code would produce.  JSON
values parsed from remote responses are modelled by the inductive `JVal`.
-/

/-! ## String primitives

Python's `in` operator on strings is substring containment, and `.lower()`
lower-cases the text.  The texts handled by this program are ASCII, so
lower-casing is modelled on the ASCII range.  Both are defined over the
character list of the string so that they evaluate inside the kernel.
-/

/-- ASCII lower-casing of one character, as Python `str.lower` acts on the
ASCII inputs of this program. -/
def lowerChar (c : Char) : Char :=
  if 'A' ≤ c ∧ c ≤ 'Z' then Char.ofNat (c.toNat + 32) else c

/-- ASCII lower-casing of a string (Python `str.lower()`). -/
def lowerStr (s : String) : String := String.mk (s.data.map lowerChar)

/-- `infixOf p l` is true iff `p` occurs as a contiguous sublist of `l`. -/
def infixOf (p : List Char) : List Char → Bool
  | [] => p.isEmpty
  | c :: t => p.isPrefixOf (c :: t) || infixOf p t

/-- Python's `pat in s` substring test. -/
def strContains (s pat : String) : Bool := infixOf pat.data s.data

/-- Python's `any(keyword in text for keyword in keywords)`. -/
def anyKeyword (keywords : List String) (text : String) : Bool :=
  keywords.any (fun k => strContains text k)

/-- The combined lower-cased text `f"{title} {description}".lower()` used by
the classifier, the task breakdown and the assignee policy. -/
def combined_text (title description : String) : String :=
  lowerStr (title ++ " " ++ description)

/-! ## Data model: task specifications

`TaskSpec` is the shape of the dicts emitted by the decomposition engine
(`title`, `description`, `assignee`, `priority`, `feature`); the creation
loop later submits each one with `task_order := priority`. -/

structure TaskSpec where
  title : String
  description : String
  assignee : String
  priority : Nat
  feature : String
deriving DecidableEq

/-! ## Domain classifier keyword sets (`_generate_project_tasks`, lines 416–426) -/

def auth_keywords : List String := ["auth", "login", "user", "account"]

def api_keywords : List String := ["api", "backend", "server", "endpoint"]

def frontend_keywords : List String := ["ui", "frontend", "react", "component", "dashboard"]

def database_keywords : List String := ["database", "db", "data", "model"]

/-! ## Project decomposition templates (`task_agent.py`, lines 475–610) -/

/-- `TaskAgent._generate_auth_tasks`. -/
def _generate_auth_tasks : List TaskSpec :=
  [⟨"Design authentication flow",
    "Design the user authentication workflow including login, registration, and password reset flows",
    "User", 9, "authentication"⟩,
   ⟨"Implement user model and database schema",
    "Create user model with fields for authentication, set up database schema with proper indexing",
    "AI IDE Agent", 9, "authentication"⟩,
   ⟨"Build login API endpoint",
    "Implement secure login endpoint with JWT token generation and validation",
    "AI IDE Agent", 8, "authentication"⟩,
   ⟨"Create registration endpoint",
    "Build user registration with email verification and password hashing",
    "AI IDE Agent", 8, "authentication"⟩]

/-- `TaskAgent._generate_api_tasks`. -/
def _generate_api_tasks : List TaskSpec :=
  [⟨"Set up API framework and routing",
    "Initialize API framework, set up routing structure, and configure middleware",
    "AI IDE Agent", 9, "api"⟩,
   ⟨"Implement API authentication middleware",
    "Create middleware for API authentication and authorization",
    "AI IDE Agent", 8, "api"⟩,
   ⟨"Create API documentation",
    "Set up API documentation with OpenAPI/Swagger specifications",
    "Archon", 6, "api"⟩]

/-- `TaskAgent._generate_frontend_tasks`. -/
def _generate_frontend_tasks : List TaskSpec :=
  [⟨"Set up frontend framework and build system",
    "Initialize React/Vue/Angular project with build configuration and dev environment",
    "AI IDE Agent", 9, "frontend"⟩,
   ⟨"Design UI component library",
    "Create reusable UI components and establish design system",
    "User", 7, "frontend"⟩,
   ⟨"Implement responsive layouts",
    "Build responsive layouts for mobile and desktop views",
    "AI IDE Agent", 6, "frontend"⟩]

/-- `TaskAgent._generate_database_tasks`. -/
def _generate_database_tasks : List TaskSpec :=
  [⟨"Design database schema",
    "Create comprehensive database schema with relationships, indexes, and constraints",
    "User", 9, "database"⟩,
   ⟨"Set up database migrations",
    "Implement database migration system for schema versioning",
    "AI IDE Agent", 8, "database"⟩,
   ⟨"Create database access layer",
    "Implement ORM setup and database access patterns",
    "AI IDE Agent", 7, "database"⟩]

/-- `TaskAgent._generate_generic_project_tasks`. -/
def _generate_generic_project_tasks (title : String) : List TaskSpec :=
  [⟨"Project initialization and setup",
    "Initialize " ++ title ++ " project structure, dependencies, and development environment",
    "AI IDE Agent", 9, "setup"⟩,
   ⟨"Define project requirements",
    "Analyze and document detailed requirements for " ++ title,
    "User", 8, "planning"⟩,
   ⟨"Create project architecture design",
    "Design system architecture and component interactions",
    "User", 7, "architecture"⟩]

/-- The two common closing tasks appended by `_generate_project_tasks`
(lines 433–448) to every project decomposition. -/
def common_project_tasks (title : String) : List TaskSpec :=
  [⟨"Create project documentation",
    "Set up initial documentation for " ++ title ++
      " project including README, setup instructions, and architecture overview",
    "Archon", 7, "documentation"⟩,
   ⟨"Set up testing framework",
    "Configure testing infrastructure and write initial test cases",
    "AI IDE Agent", 6, "testing"⟩]

/-- The pure specification-building part of
`TaskAgent._generate_project_tasks` (lines 408–448): classify the combined
lower-cased text against the four keyword sets, extend with each matched
domain template in the fixed order, fall back to the generic template when
the accumulated list is empty, and always append the two common tasks. -/
def _generate_project_tasks_specs (title description : String) : List TaskSpec :=
  let text := combined_text title description
  let tasks :=
    (if anyKeyword auth_keywords text then _generate_auth_tasks else []) ++
    (if anyKeyword api_keywords text then _generate_api_tasks else []) ++
    (if anyKeyword frontend_keywords text then _generate_frontend_tasks else []) ++
    (if anyKeyword database_keywords text then _generate_database_tasks else [])
  let tasks := if tasks.isEmpty then tasks ++ _generate_generic_project_tasks title else tasks
  tasks ++ common_project_tasks title

/-! ## Task breakdown (`TaskAgent._analyze_and_break_down_task`, lines 612–716) -/

/-- The 5-step API-endpoint subtask template (lines 619–655). -/
def api_endpoint_subtasks (task_title : String) : List TaskSpec :=
  [⟨"Design " ++ task_title ++ " request/response schema",
    "Define API request parameters, response format, and data validation rules",
    "User", 8, "api_design"⟩,
   ⟨"Implement " ++ task_title ++ " input validation",
    "Add input validation and sanitization for the endpoint",
    "AI IDE Agent", 9, "validation"⟩,
   ⟨"Add " ++ task_title ++ " business logic",
    "Implement the core business logic for the endpoint functionality",
    "AI IDE Agent", 8, "business_logic"⟩,
   ⟨"Create " ++ task_title ++ " error handling",
    "Implement comprehensive error handling and appropriate HTTP status codes",
    "AI IDE Agent", 7, "error_handling"⟩,
   ⟨"Write tests for " ++ task_title,
    "Create unit and integration tests for the endpoint",
    "AI IDE Agent", 6, "testing"⟩]

/-- The 4-step UI-component subtask template (lines 658–688). -/
def ui_component_subtasks (task_title : String) : List TaskSpec :=
  [⟨"Design " ++ task_title ++ " wireframes",
    "Create wireframes and visual design for the component",
    "User", 8, "design"⟩,
   ⟨"Implement " ++ task_title ++ " structure",
    "Build the basic component structure and layout",
    "AI IDE Agent", 8, "implementation"⟩,
   ⟨"Add " ++ task_title ++ " interactivity",
    "Implement user interactions and event handling",
    "AI IDE Agent", 7, "functionality"⟩,
   ⟨"Style " ++ task_title ++ " component",
    "Apply responsive styling and accessibility features",
    "AI IDE Agent", 6, "styling"⟩]

/-- The 3-step generic subtask template (lines 691–714). -/
def generic_subtasks (task_title : String) : List TaskSpec :=
  [⟨"Research and plan " ++ task_title,
    "Research requirements and create detailed plan for " ++ task_title,
    "User", 8, "planning"⟩,
   ⟨"Implement core " ++ task_title ++ " functionality",
    "Build the main functionality for " ++ task_title,
    "AI IDE Agent", 7, "implementation"⟩,
   ⟨"Test and validate " ++ task_title,
    "Create tests and validate the implementation of " ++ task_title,
    "AI IDE Agent", 6, "testing"⟩]

/-- `TaskAgent._analyze_and_break_down_task`: first match wins between the
API-endpoint condition (both "api" and "endpoint" present), the UI
condition (any of "component", "ui", "interface", "form"), and the generic
fallback. -/
def _analyze_and_break_down_task (task_title task_description : String) : List TaskSpec :=
  let text := combined_text task_title task_description
  if strContains text "api" && strContains text "endpoint" then
    api_endpoint_subtasks task_title
  else if anyKeyword ["component", "ui", "interface", "form"] text then
    ui_component_subtasks task_title
  else
    generic_subtasks task_title

/-! ## Assignee policy (`test_task_agent_simple.py`, `select_assignee`, lines 176–196) -/

def planning_keywords : List String := ["design", "plan", "strategy", "requirements", "review"]

def orchestration_keywords : List String := ["coordinate", "manage", "orchestrate", "workflow"]

def implementation_keywords : List String := ["implement", "code", "create", "build", "develop"]

/-- `select_assignee(task_title, task_description="")`: keyword precedence
on the combined lower-cased text, first match wins, defaulting to
`"User"`. -/
def select_assignee (task_title task_description : String) : String :=
  let text := combined_text task_title task_description
  if anyKeyword planning_keywords text then "User"
  else if anyKeyword orchestration_keywords text then "Archon"
  else if anyKeyword implementation_keywords text then "AI IDE Agent"
  else "User"

/-- The three assignee roles of the data model.  The code spells them
`"User"`, `"AI IDE Agent"` (the automated implementation agent) and
`"Archon"` (the orchestrator / documentation owner). -/
inductive Role
  | User
  | AutomatedAgent
  | Orchestrator
deriving DecidableEq

/-- Mapping from the assignee strings used by the code to the closed role
set; any other string is not a valid assignee. -/
def roleOf : String → Option Role
  | "User" => some Role.User
  | "AI IDE Agent" => some Role.AutomatedAgent
  | "Archon" => some Role.Orchestrator
  | _ => none

/-! ## Health analyzer (`TaskAgent._analyze_project_health`, lines 718–789) -/

/-- A task as consumed by the health analyzer: only its `status` and
`assignee` fields are read (with Python defaults `"todo"` / `"User"`
already applied for absent fields). -/
structure HTask where
  status : String
  assignee : String
deriving DecidableEq

/-- The count the `status_counts` dict of `_analyze_project_health` holds
for key `s` after its counting loop. -/
def countStatus (tasks : List HTask) (s : String) : Nat :=
  tasks.countP (fun t => t.status == s)

/-- The exact (real-number) value of
`completion_rate = status_counts["done"] / total_tasks` (line 744); the
program's binary64 evaluation of the same quotient is
`completion_rate_f`. -/
def completion_rate (tasks : List HTask) : ℚ :=
  (countStatus tasks "done" : ℚ) / (tasks.length : ℚ)

/-- The exact value of
`activity_rate = (status_counts["doing"] + status_counts["review"]) / total_tasks`
(line 745); the binary64 evaluation is `activity_rate_f`. -/
def activity_rate (tasks : List HTask) : ℚ :=
  ((countStatus tasks "doing" + countStatus tasks "review" : Nat) : ℚ) / (tasks.length : ℚ)

/-- The exact value of the bracketed term
`completion_rate * 6 + activity_rate * 4` of the health-score formula
(line 746); the binary64 evaluation is `health_bracket_f`. -/
def health_bracket (tasks : List HTask) : ℚ :=
  completion_rate tasks * 6 + activity_rate tasks * 4

/-! ### Binary64 arithmetic

The rates and the bracketed term are Python floats: every division,
multiplication and addition at lines 744–746 is an IEEE-754 binary64
operation, i.e. the exact rational result rounded to 53 significant bits,
to nearest, ties to even (Python's int/int division is likewise correctly
rounded).  Every binary64 value is an exact rational, so the computation
is modelled by applying the rounding function `roundB64 : ℚ → ℚ` after
each exact operation.  The magnitudes arising here (at most 60) are far
below the overflow threshold, so overflow needs no modelling; the
subnormal range is covered by clamping the ulp exponent at `-1074`. -/

/-- Round a rational to the nearest integer, ties to even. -/
def rne (x : ℚ) : ℤ :=
  if x - ⌊x⌋ < 1/2 then ⌊x⌋
  else if 1/2 < x - ⌊x⌋ then ⌊x⌋ + 1
  else if 2 ∣ ⌊x⌋ then ⌊x⌋ else ⌊x⌋ + 1

/-- The exponent of the binary64 unit in the last place at magnitude `q`:
52 bits below the leading binade, clamped at the subnormal grid. -/
def ulpExp (q : ℚ) : ℤ := max (-1074) (Int.log 2 q - 52)

/-- Correct rounding of an exact rational to an IEEE-754 binary64 value
(round to nearest, ties to even), the result again as an exact rational. -/
def roundB64 (q : ℚ) : ℚ :=
  if q = 0 then 0
  else if 0 < q then (rne (q / 2 ^ ulpExp q) : ℚ) * (2 : ℚ) ^ ulpExp q
  else -((rne (-q / 2 ^ ulpExp (-q)) : ℚ) * (2 : ℚ) ^ ulpExp (-q))

/-- Python `int()` on a (modelled) float: truncation toward zero. -/
def pyInt (q : ℚ) : ℤ := if q < 0 then ⌈q⌉ else ⌊q⌋

/-- The binary64 value the program stores for `completion_rate`
(line 744): the correctly rounded int/int quotient. -/
def completion_rate_f (tasks : List HTask) : ℚ :=
  roundB64 (completion_rate tasks)

/-- The binary64 value the program stores for `activity_rate`
(line 745). -/
def activity_rate_f (tasks : List HTask) : ℚ :=
  roundB64 (activity_rate tasks)

/-- The binary64 evaluation of the bracketed term at line 746:
`completion_rate * 6` and `activity_rate * 4` are each rounded, then their
sum is rounded. -/
def health_bracket_f (tasks : List HTask) : ℚ :=
  roundB64 (roundB64 (completion_rate_f tasks * 6) + roundB64 (activity_rate_f tasks * 4))

/-- `health_score = min(10, int((completion_rate * 6 + activity_rate * 4) * 10))`
(line 746), with the bracketed term and the final product evaluated in
binary64 and `int()` truncating toward zero. -/
def health_score (tasks : List HTask) : ℤ :=
  min 10 (pyInt (roundB64 (health_bracket_f tasks * 10)))

/-- A 40-task store — 6 done, 1 doing, 33 todo — at which the program's
binary64 health computation (score 9) disagrees with the exact formula
(score 10): the float bracketed term is `0.9999999999999999`. -/
def demo40 : List HTask :=
  List.replicate 6 ⟨"done", "User"⟩ ++
    ⟨"doing", "User"⟩ :: List.replicate 33 ⟨"todo", "User"⟩

/-! ## Batch task-creation loops

The remote `manage_task(action="create", ...)` call made for one spec
either raises a transport exception or returns an envelope whose
`success` field the loop inspects; `CreateOutcome` is that per-item
outcome. -/

inductive CreateOutcome
  | exn (msg : String)
  | resp (success : Bool)
deriving DecidableEq

/-- True exactly for an envelope outcome with `success` true. -/
def isSuccessResp : CreateOutcome → Bool
  | CreateOutcome.resp true => true
  | _ => false

/-- The creation loop of `TaskAgent._generate_project_tasks`
(lines 454–472): each iteration has its own `try`/`except`, so an
exception is logged and the loop continues; `tasks_created` counts only
envelopes with `success` true. -/
def _generate_project_tasks_loop : List CreateOutcome → Nat
  | [] => 0
  | CreateOutcome.exn _ :: rest => _generate_project_tasks_loop rest
  | CreateOutcome.resp ok :: rest =>
      (if ok then 1 else 0) + _generate_project_tasks_loop rest

/-- The creation loop of the `break_down_task` tool (lines 206–219): the
loop body has no per-item handler, so a raised exception escapes to the
handler wrapping the whole tool (aborting the remaining items); an
envelope with `success` false is merely not counted. -/
def break_down_task_loop : List CreateOutcome → Except String Nat
  | [] => Except.ok 0
  | CreateOutcome.exn e :: _ => Except.error e
  | CreateOutcome.resp ok :: rest =>
      match break_down_task_loop rest with
      | Except.ok n => Except.ok ((if ok then 1 else 0) + n)
      | Except.error e => Except.error e

/-! ## JSON values and Python dict access

All remote responses are textual JSON envelopes; after `json.loads` the
program holds a parsed JSON value, modelled by `JVal`.  The code accesses
it with `dict.get`, which raises `AttributeError` on a non-dict value —
that raise is what the surrounding `except` handlers then convert into an
error string. -/

inductive JVal
  | null
  | bool (b : Bool)
  | num (n : Int)
  | str (s : String)
  | arr (xs : List JVal)
  | obj (fields : List (String × JVal))

/-- Whether a parsed JSON value is an object (a Python dict). -/
def JVal.isObj : JVal → Bool
  | JVal.obj _ => true
  | _ => false

/-- Python `type(v).__name__` for the parsed JSON value shapes. -/
def typeName : JVal → String
  | JVal.null => "NoneType"
  | JVal.bool _ => "bool"
  | JVal.num _ => "int"
  | JVal.str _ => "str"
  | JVal.arr _ => "list"
  | JVal.obj _ => "dict"

/-- The `str(e)` text of the `AttributeError` raised by calling a missing
attribute (such as `.get`) on a non-dict value. -/
def noAttrMsg (v : JVal) (a : String) : String :=
  "\x27" ++ typeName v ++ "\x27 object has no attribute \x27" ++ a ++ "\x27"

/-- Python `d.get(k, default)` on a parsed JSON object’s field list. -/
def dictGet (fields : List (String × JVal)) (k : String) (d : JVal) : JVal :=
  (List.lookup k fields).getD d

/-- Python truthiness of a parsed JSON value, as tested by
`if data.get("success", False)`. -/
def truthy : JVal → Bool
  | JVal.null => false
  | JVal.bool b => b
  | JVal.num n => n != 0
  | JVal.str s => !s.isEmpty
  | JVal.arr xs => !xs.isEmpty
  | JVal.obj fs => !fs.isEmpty

/-- Python `str(v)` as used when interpolating a parsed JSON value into an
f-string.  The list/dict cases are rendered by placeholders; no theorem
below exercises them. -/
def pyStr : JVal → String
  | JVal.str s => s
  | JVal.bool b => if b then "True" else "False"
  | JVal.null => "None"
  | JVal.num n => toString n
  | JVal.arr _ => "<list>"
  | JVal.obj _ => "<dict>"

/-! ## Agents service client (`agents_service_client.py`)

One call to `call_document_agent` / `call_rag_agent` performs a single
HTTP request inside a `try`; `CallOutcome` is the outcome of one such
attempt: a parsed response body, an `httpx.HTTPError` (connection failure
or `raise_for_status` on a bad status), or any other exception.  The
client is given the stream of outcomes successive attempts would produce;
the code makes exactly one attempt, so only the first entry is ever
consumed. -/

inductive CallOutcome
  | ok (result : JVal)
  | httpError (msg : String)
  | exn (msg : String)

/-- The failure envelope `{"success": False, "error": msg, "result": None}`
returned by the service client’s `except` clauses. -/
def failEnvelope (msg : String) : JVal :=
  JVal.obj [("success", JVal.bool false), ("error", JVal.str msg), ("result", JVal.null)]

/-- `AgentsServiceClient.call_document_agent` (lines 27–85): one request;
`httpx.HTTPError` becomes an `"HTTP error: ..."` failure envelope, any
other exception an `"Unexpected error: ..."` one; a parsed response body
is returned as-is.  The function is total: no path raises to the caller. -/
def call_document_agent (attempts : Nat → CallOutcome) : JVal :=
  match attempts 0 with
  | CallOutcome.ok result => result
  | CallOutcome.httpError m => failEnvelope ("HTTP error: " ++ m)
  | CallOutcome.exn m => failEnvelope ("Unexpected error: " ++ m)

/-- `AgentsServiceClient.call_rag_agent` (lines 87–148): identical
request/exception structure to `call_document_agent`. -/
def call_rag_agent (attempts : Nat → CallOutcome) : JVal :=
  match attempts 0 with
  | CallOutcome.ok result => result
  | CallOutcome.httpError m => failEnvelope ("HTTP error: " ++ m)
  | CallOutcome.exn m => failEnvelope ("Unexpected error: " ++ m)

/-! ## Envelope handling of `create_project_with_tasks` (lines 142–185)

The tool parses the `manage_project` response and inspects
`project_data.get("success", False)`; a non-dict value raises
`AttributeError`, which the tool-level `except` turns into an
`"Error creating project: ..."` string.  The subsequent task generation is
abstracted into its resulting count `tasks_created`. -/

def create_project_with_tasks (title : String) (projectResp : JVal) (tasks_created : Nat) : String :=
  match projectResp with
  | JVal.obj fields =>
      if truthy (dictGet fields "success" (JVal.bool false)) then
        "✅ Successfully created project \x27" ++ title ++ "\x27 with " ++
          toString tasks_created ++ " initial tasks. Project ID: " ++
          pyStr (dictGet fields "project_id" JVal.null)
      else
        "Failed to create project: " ++ pyStr (dictGet fields "error" (JVal.str "Unknown error"))
  | v => "Error creating project: " ++ noAttrMsg v "get"

/-! ## `update_task_status` (lines 291–349)

The tool validates the status, lists the project’s tasks, filters them by
a case-insensitive substring test of the given title, takes the first
match, and issues a single `manage_task(action="update")` call for it.
The embedding receives the parsed list response and the parsed update
response, and returns the tool’s message together with the update calls it
issued (the prior project-context check, which merely aborts when no
project id is available, is outside the modelled scope).

One approximation: when the listed `"tasks"` field is not a JSON array,
the embedding collapses every such value into a single not-iterable error
result.  Python raises `TypeError` there only for `None`/number/bool; a
`str` or `dict` value would instead be iterated (characters resp. keys)
and then fail with an `AttributeError` on `.get` inside the comprehension
(or, for an empty string, fall through to the no-match message).  No
theorem below ranges over that branch — they all fix a well-formed list
response. -/

def valid_statuses : List String := ["todo", "doing", "review", "done"]

/-- The status emoji map of line 342 (`dict.get` with default `"❓"`). -/
def statusEmoji (s : String) : String :=
  if s = "todo" then "⏳"
  else if s = "doing" then "🔄"
  else if s = "review" then "👀"
  else if s = "done" then "✅"
  else "❓"

/-- One `manage_task(action="update", task_id=..., update_fields=...)`
call. -/
structure UpdateCall where
  task_id : JVal
  update_fields : List (String × String)

/-- One step of the matching list comprehension (line 322–325):
`task_title.lower() in task.get("title", "").lower()`.  A non-dict task or
a non-string title raises `AttributeError` inside the comprehension. -/
def matchTitle (task_title_lower : String) : JVal → Except String Bool
  | JVal.obj fs =>
      match dictGet fs "title" (JVal.str "") with
      | JVal.str s => Except.ok (strContains (lowerStr s) task_title_lower)
      | v => Except.error (noAttrMsg v "lower")
  | v => Except.error (noAttrMsg v "get")

/-- The full matching list comprehension over the listed tasks. -/
def buildMatching (task_title_lower : String) : List JVal → Except String (List JVal)
  | [] => Except.ok []
  | t :: rest =>
      match matchTitle task_title_lower t with
      | Except.error e => Except.error e
      | Except.ok b =>
          match buildMatching task_title_lower rest with
          | Except.error e => Except.error e
          | Except.ok ms => Except.ok (if b then t :: ms else ms)

/-- The `update_task_status` tool.  Result: the returned message and the
list of update calls issued on the way. -/
def update_task_status (task_title new_status : String)
    (listResp updateResp : JVal) : String × List UpdateCall :=
  if !(valid_statuses.contains new_status) then
    ("Invalid status \x27" ++ new_status ++ "\x27. Valid statuses are: todo, doing, review, done",
     [])
  else
    match listResp with
    | JVal.obj lf =>
        if truthy (dictGet lf "success" (JVal.bool false)) then
          match dictGet lf "tasks" (JVal.arr []) with
          | JVal.arr listed =>
              match buildMatching (lowerStr task_title) listed with
              | Except.error e => ("Error updating task status: " ++ e, [])
              | Except.ok [] =>
                  ("No task found matching \x27" ++ task_title ++ "\x27 in this project.", [])
              | Except.ok (task :: _) =>
                  let fs := match task with | JVal.obj fs => fs | _ => []
                  let call : UpdateCall := ⟨dictGet fs "id" JVal.null, [("status", new_status)]⟩
                  match updateResp with
                  | JVal.obj uf =>
                      if truthy (dictGet uf "success" (JVal.bool false)) then
                        ("✅ Updated \x27" ++ pyStr (dictGet fs "title" JVal.null) ++
                           "\x27 status to " ++ statusEmoji new_status ++ " " ++ new_status,
                         [call])
                      else
                        ("Failed to update task status: " ++
                           pyStr (dictGet uf "error" (JVal.str "Unknown error")),
                         [call])
                  | v => ("Error updating task status: " ++ noAttrMsg v "get", [call])
          | v =>
              ("Error updating task status: " ++
                 "\x27" ++ typeName v ++ "\x27 object is not iterable", [])
        else
          ("Error retrieving tasks to find the specified task.", [])
    | v => ("Error updating task status: " ++ noAttrMsg v "get", [])

/-- A task as listed by the store, holding the two fields this tool reads. -/
structure StoreTask where
  id : String
  title : String
deriving DecidableEq

/-- The JSON object the store returns for one listed task. -/
def storeTaskJ (t : StoreTask) : JVal :=
  JVal.obj [("id", JVal.str t.id), ("title", JVal.str t.title)]

/-- A successful `manage_task(action="list")` envelope carrying the given
tasks. -/
def listOkResp (tasks : List StoreTask) : JVal :=
  JVal.obj [("success", JVal.bool true), ("tasks", JVal.arr (tasks.map storeTaskJ))]

/-! ## Theorems -/

/-- C1: for every (title, description) pair, project decomposition emits,
for each domain whose keyword set matches the combined lower-cased text,
that domain's complete fixed template in the fixed domain order
authentication, api, frontend, database (with priorities 9,9,8,8 /
9,8,6 / 9,7,6 / 9,8,7), and always appends exactly the two common closing
tasks — "Create project documentation" (assignee "Archon", the
documentation owner, priority 7) followed by "Set up testing framework"
(assignee "AI IDE Agent", priority 6) — as the last two specs. -/
theorem project_decomposition_domain_templates (title description : String) :
    (_generate_project_tasks_specs title description =
      (if anyKeyword auth_keywords (combined_text title description) then
        _generate_auth_tasks else []) ++
      (if anyKeyword api_keywords (combined_text title description) then
        _generate_api_tasks else []) ++
      (if anyKeyword frontend_keywords (combined_text title description) then
        _generate_frontend_tasks else []) ++
      (if anyKeyword database_keywords (combined_text title description) then
        _generate_database_tasks else []) ++
      (if anyKeyword auth_keywords (combined_text title description) ||
          anyKeyword api_keywords (combined_text title description) ||
          anyKeyword frontend_keywords (combined_text title description) ||
          anyKeyword database_keywords (combined_text title description) then
        [] else _generate_generic_project_tasks title) ++
      common_project_tasks title)
    ∧ _generate_auth_tasks.map TaskSpec.priority = [9, 9, 8, 8]
    ∧ _generate_api_tasks.map TaskSpec.priority = [9, 8, 6]
    ∧ _generate_frontend_tasks.map TaskSpec.priority = [9, 7, 6]
    ∧ _generate_database_tasks.map TaskSpec.priority = [9, 8, 7]
    ∧ (common_project_tasks title).map (fun s => (s.title, s.assignee, s.priority)) =
        [("Create project documentation", "Archon", 7),
         ("Set up testing framework", "AI IDE Agent", 6)] := by
  refine ⟨?_, rfl, rfl, rfl, rfl, rfl⟩
  unfold _generate_project_tasks_specs
  cases h1 : anyKeyword auth_keywords (combined_text title description) <;>
    cases h2 : anyKeyword api_keywords (combined_text title description) <;>
      cases h3 : anyKeyword frontend_keywords (combined_text title description) <;>
        cases h4 : anyKeyword database_keywords (combined_text title description) <;>
          simp [h1, h2, h3, h4, _generate_auth_tasks, _generate_api_tasks,
            _generate_frontend_tasks, _generate_database_tasks]

/-- C2: task breakdown is mutually exclusive with first match winning —
both "api" and "endpoint" present yields exactly the 5-step API template
with priorities [8,9,8,7,6] (first step assigned "User", the rest
"AI IDE Agent"); otherwise any of "component"/"ui"/"interface"/"form"
yields the 4-step UI template with priorities [8,8,7,6]; otherwise the
3-step generic template with priorities [8,7,6].  In particular,
breaking down "Build user API endpoint" yields 5 subtasks with priorities
[8,9,8,7,6], and "Design login form" yields the 4-step UI template. -/
theorem task_breakdown_first_match_wins (title description : String) :
    (_analyze_and_break_down_task title description =
      (if strContains (combined_text title description) "api" &&
          strContains (combined_text title description) "endpoint" then
        api_endpoint_subtasks title
       else if anyKeyword ["component", "ui", "interface", "form"]
          (combined_text title description) then
        ui_component_subtasks title
       else generic_subtasks title))
    ∧ (api_endpoint_subtasks title).map TaskSpec.priority = [8, 9, 8, 7, 6]
    ∧ (api_endpoint_subtasks title).map TaskSpec.assignee =
        ["User", "AI IDE Agent", "AI IDE Agent", "AI IDE Agent", "AI IDE Agent"]
    ∧ (ui_component_subtasks title).map TaskSpec.priority = [8, 8, 7, 6]
    ∧ (generic_subtasks title).map TaskSpec.priority = [8, 7, 6]
    ∧ (_analyze_and_break_down_task "Build user API endpoint" "").map TaskSpec.priority =
        [8, 9, 8, 7, 6]
    ∧ _analyze_and_break_down_task "Design login form" "" =
        ui_component_subtasks "Design login form"
    ∧ (_analyze_and_break_down_task "Design login form" "").length = 4 := by
  exact ⟨rfl, rfl, rfl, rfl, rfl, by decide, by decide, by decide⟩

/-- C3, counterexample: the claim asserts that in *both* decomposition
batch loops a transport-level exception on one item is skipped and the
loop continues, reporting the number of success-true creations.  In the
`break_down_task` loop a batch whose first creation raises and whose
second returns success would then have to report `Except.ok 1`; instead
the exception escapes the loop and aborts the batch. -/
theorem break_down_task_loop_abort_counterexample :
    break_down_task_loop [CreateOutcome.exn "connection refused", CreateOutcome.resp true] =
      Except.error "connection refused"
    ∧ break_down_task_loop [CreateOutcome.exn "connection refused", CreateOutcome.resp true] ≠
      Except.ok 1 := by
  refine ⟨rfl, ?_⟩
  intro h
  simp [break_down_task_loop] at h

/-- C3, amended: in the project-decomposition creation loop a single
item's failure — transport exception or success-false envelope — is
skipped, the loop continues, and the reported count is exactly the number
of success-true envelopes.  In the task-breakdown creation loop only
success-false envelopes are skipped with the count reflecting success-true
envelopes; a transport exception aborts the batch at that item and
surfaces an error for the whole operation. -/
theorem create_loop_per_item_isolation :
    (∀ outcomes : List CreateOutcome,
        _generate_project_tasks_loop outcomes = outcomes.countP isSuccessResp)
    ∧ (∀ results : List Bool,
        break_down_task_loop (results.map CreateOutcome.resp) =
          Except.ok (results.countP (fun b => b)))
    ∧ (∀ (results : List Bool) (e : String) (rest : List CreateOutcome),
        break_down_task_loop (results.map CreateOutcome.resp ++ CreateOutcome.exn e :: rest) =
          Except.error e) := by
  refine ⟨?_, ?_, ?_⟩
  · intro outcomes
    induction outcomes with
    | nil => rfl
    | cons o rest ih =>
        cases o with
        | exn m =>
            simp [_generate_project_tasks_loop, List.countP_cons, isSuccessResp, ih]
        | resp ok =>
            cases ok <;>
              simp [_generate_project_tasks_loop, List.countP_cons, isSuccessResp, ih,
                Nat.add_comm]
  · intro results
    induction results with
    | nil => rfl
    | cons b rest ih =>
        cases b <;>
          simp [break_down_task_loop, List.countP_cons, ih, Nat.add_comm]
  · intro results e rest
    induction results with
    | nil => rfl
    | cons b more ih =>
        simp [break_down_task_loop, ih]

/-- Each task has one status string, so the done, doing and review counts
together never exceed the task count. -/
theorem countStatus_three_le (tasks : List HTask) :
    countStatus tasks "done" + countStatus tasks "doing" + countStatus tasks "review" ≤
      tasks.length := by
  induction tasks with
  | nil => simp [countStatus]
  | cons t ts ih =>
      have hone :
          (if t.status == "done" then 1 else 0) + (if t.status == "doing" then 1 else 0) +
            (if t.status == "review" then 1 else 0) ≤ 1 := by
        by_cases h1 : t.status = "done" <;> by_cases h2 : t.status = "doing" <;>
          by_cases h3 : t.status = "review" <;> simp_all
      simp only [countStatus, List.countP_cons, List.length_cons] at *
      omega

/-- `rne` of a non-negative rational is non-negative. -/
theorem rne_nonneg (x : ℚ) (hx : 0 ≤ x) : 0 ≤ rne x := by
  have hf : 0 ≤ ⌊x⌋ := Int.floor_nonneg.mpr hx
  unfold rne
  split_ifs <;> omega

/-- `roundB64` of a non-negative rational is non-negative. -/
theorem roundB64_nonneg (q : ℚ) (hq : 0 ≤ q) : 0 ≤ roundB64 q := by
  unfold roundB64
  rcases lt_or_eq_of_le hq with h | h
  · rw [if_neg (ne_of_gt h), if_pos h]
    have h1 : (0 : ℚ) ≤ (rne (q / 2 ^ ulpExp q) : ℚ) := by
      exact_mod_cast rne_nonneg _ (div_nonneg hq (by positivity))
    exact mul_nonneg h1 (by positivity)
  · rw [if_pos h.symm]

/-- `pyInt` of a non-negative rational is non-negative. -/
theorem pyInt_nonneg (q : ℚ) (hq : 0 ≤ q) : 0 ≤ pyInt q := by
  unfold pyInt
  rw [if_neg (not_lt.mpr hq)]
  exact Int.floor_nonneg.mpr hq

/-- The binary64 bracketed term is non-negative: every operand is
non-negative and rounding preserves sign. -/
theorem health_bracket_f_nonneg (tasks : List HTask) : 0 ≤ health_bracket_f tasks := by
  unfold health_bracket_f completion_rate_f activity_rate_f
  refine roundB64_nonneg _ (add_nonneg (roundB64_nonneg _ ?_) (roundB64_nonneg _ ?_))
  · refine mul_nonneg (roundB64_nonneg _ ?_) (by norm_num)
    unfold completion_rate
    positivity
  · refine mul_nonneg (roundB64_nonneg _ ?_) (by norm_num)
    unfold activity_rate
    positivity

/-- `rne` evaluation: fractional part below one half rounds down. -/
theorem rne_eval_lt (x : ℚ) (f : ℤ) (hf : ⌊x⌋ = f) (hr : x - f < 1 / 2) :
    rne x = f := by
  unfold rne
  rw [hf, if_pos hr]

/-- `rne` evaluation: fractional part above one half rounds up. -/
theorem rne_eval_gt (x : ℚ) (f : ℤ) (hf : ⌊x⌋ = f) (hr : 1 / 2 < x - f) :
    rne x = f + 1 := by
  unfold rne
  rw [hf, if_neg (by linarith), if_pos hr]

/-- `rne` evaluation: an exact tie with the floor even rounds to the
floor. -/
theorem rne_eval_tie_even (x : ℚ) (f : ℤ) (hf : ⌊x⌋ = f) (hr : x - f = 1 / 2)
    (he : 2 ∣ f) : rne x = f := by
  unfold rne
  rw [hf, hr, if_neg (by norm_num), if_neg (by norm_num), if_pos he]

/-- Evaluation rule for `roundB64` at a positive value in the normal-range
binade `[2^E, 2^(E+1))`: the ulp is `2^(E-52) = 2^(-k)` and the result is
the mantissa rounded to nearest, ties to even. -/
theorem roundB64_eval (q : ℚ) (E m : ℤ) (k : ℕ) (hq : 0 < q)
    (hk : (52 : ℤ) - E = (k : ℤ))
    (h1 : (2 : ℚ) ^ E ≤ q) (h2 : q < (2 : ℚ) ^ (E + 1)) (hE : -1022 ≤ E)
    (hm : rne (q * (2 : ℚ) ^ k) = m) :
    roundB64 q = (m : ℚ) / (2 : ℚ) ^ k := by
  have hlog : Int.log 2 q = E := by
    have hcast : ((2 : ℕ) : ℚ) = (2 : ℚ) := by norm_num
    have hle : E ≤ Int.log 2 q := by
      rw [← Int.zpow_le_iff_le_log (by norm_num) hq, hcast]
      exact h1
    have hlt : Int.log 2 q < E + 1 := by
      rw [← Int.lt_zpow_iff_log_lt (by norm_num) hq, hcast]
      exact h2
    omega
  have hu : ulpExp q = E - 52 := by
    unfold ulpExp
    rw [hlog]
    exact max_eq_right (by omega)
  have hzp : (2 : ℚ) ^ (E - 52) = ((2 : ℚ) ^ k)⁻¹ := by
    rw [← zpow_natCast (2 : ℚ) k, ← zpow_neg]
    congr 1
    omega
  unfold roundB64
  rw [if_neg (ne_of_gt hq), if_pos hq, hu, hzp, div_eq_mul_inv q, inv_inv, hm,
    div_eq_mul_inv ((m : ℚ))]

/-- C4, counterexample: the claim equates the program's health score with
`min(10, ⌊(completion_rate·6 + activity_rate·4)·10⌋)` in exact
arithmetic.  At 40 tasks with 6 done and 1 doing, the binary64
computation of line 746 gives the bracket `0.9999999999999999`, times 10
is `9.999999999999998`, and `int()` truncates to 9 — while the exact
formula gives exactly 1, hence 10. -/
theorem health_score_exact_formula_counterexample :
    health_score demo40 = 9
    ∧ min 10 ⌊(completion_rate demo40 * 6 + activity_rate demo40 * 4) * 10⌋ = 10
    ∧ health_score demo40 ≠
        min 10 ⌊(completion_rate demo40 * 6 + activity_rate demo40 * 4) * 10⌋ := by
  have hc : completion_rate demo40 = 3 / 20 := by
    unfold completion_rate
    rw [show countStatus demo40 "done" = 6 from rfl, show demo40.length = 40 from rfl]
    norm_num
  have ha : activity_rate demo40 = 1 / 40 := by
    unfold activity_rate
    rw [show countStatus demo40 "doing" = 1 from rfl,
      show countStatus demo40 "review" = 0 from rfl, show demo40.length = 40 from rfl]
    norm_num
  have s1 : roundB64 (3 / 20 : ℚ) = 5404319552844595 / 2 ^ 55 :=
    roundB64_eval (3 / 20) (-3) 5404319552844595 55 (by norm_num) (by norm_num)
      (by norm_num) (by norm_num) (by norm_num)
      (rne_eval_lt _ 5404319552844595 (by norm_num) (by norm_num))
  have s2 : roundB64 (1 / 40 : ℚ) = 7205759403792794 / 2 ^ 58 :=
    roundB64_eval (1 / 40) (-6) 7205759403792794 58 (by norm_num) (by norm_num)
      (by norm_num) (by norm_num) (by norm_num)
      (by rw [rne_eval_gt _ 7205759403792793 (by norm_num) (by norm_num)]; norm_num)
  have s3 : roundB64 ((5404319552844595 / 2 ^ 55 : ℚ) * 6) = 8106479329266892 / 2 ^ 53 :=
    roundB64_eval _ (-1) 8106479329266892 53 (by norm_num) (by norm_num)
      (by norm_num) (by norm_num) (by norm_num)
      (rne_eval_tie_even _ 8106479329266892 (by norm_num) (by norm_num) (by norm_num))
  have s4 : roundB64 ((7205759403792794 / 2 ^ 58 : ℚ) * 4) = 7205759403792794 / 2 ^ 56 :=
    roundB64_eval _ (-4) 7205759403792794 56 (by norm_num) (by norm_num)
      (by norm_num) (by norm_num) (by norm_num)
      (rne_eval_lt _ 7205759403792794 (by norm_num) (by norm_num))
  have s5 : roundB64 ((8106479329266892 / 2 ^ 53 : ℚ) + 7205759403792794 / 2 ^ 56) =
      9007199254740991 / 2 ^ 53 :=
    roundB64_eval _ (-1) 9007199254740991 53 (by norm_num) (by norm_num)
      (by norm_num) (by norm_num) (by norm_num)
      (rne_eval_lt _ 9007199254740991 (by norm_num) (by norm_num))
  have s6 : roundB64 ((9007199254740991 / 2 ^ 53 : ℚ) * 10) = 5629499534213119 / 2 ^ 49 :=
    roundB64_eval _ 3 5629499534213119 49 (by norm_num) (by norm_num)
      (by norm_num) (by norm_num) (by norm_num)
      (rne_eval_lt _ 5629499534213119 (by norm_num) (by norm_num))
  have h9 : health_score demo40 = 9 := by
    unfold health_score health_bracket_f completion_rate_f activity_rate_f
    rw [hc, ha, s1, s2, s3, s4, s5, s6]
    unfold pyInt
    rw [if_neg (by norm_num)]
    norm_num
  have h10 : min 10 ⌊(completion_rate demo40 * 6 + activity_rate demo40 * 4) * 10⌋ = 10 := by
    rw [hc, ha]
    norm_num
  exact ⟨h9, h10, by rw [h9, h10]; decide⟩

/-- C4, amended: for every non-empty task list the health score equals
`min(10, int(bracket·10))` where the rates, the bracketed term
`completion_rate·6 + activity_rate·4` and the final product are evaluated
in binary64 floating point (each step correctly rounded) and `int()`
truncates toward zero; the result is an integer in [0,10].  The float
value can fall below the exact formula (at `demo40` the program computes
9 where the exact formula gives 10); for four tasks with statuses
done, doing, todo, todo every step is exact and the score is exactly
10. -/
theorem health_score_float_formula (tasks : List HTask) (h : tasks ≠ []) :
    health_score tasks =
      min 10 (pyInt (roundB64 (roundB64
          (roundB64 (roundB64 ((countStatus tasks "done" : ℚ) / (tasks.length : ℚ)) * 6) +
           roundB64 (roundB64
              (((countStatus tasks "doing" + countStatus tasks "review" : Nat) : ℚ) /
                (tasks.length : ℚ)) * 4)) * 10)))
    ∧ 0 ≤ health_score tasks
    ∧ health_score tasks ≤ 10
    ∧ health_score [⟨"done", "User"⟩, ⟨"doing", "User"⟩, ⟨"todo", "User"⟩, ⟨"todo", "User"⟩] =
        10 := by
  refine ⟨rfl, ?_, min_le_left _ _, ?_⟩
  · exact le_min (by norm_num)
      (pyInt_nonneg _ (roundB64_nonneg _
        (mul_nonneg (health_bracket_f_nonneg tasks) (by norm_num))))
  · have hc : completion_rate
        [⟨"done", "User"⟩, ⟨"doing", "User"⟩, ⟨"todo", "User"⟩, ⟨"todo", "User"⟩] = 1 / 4 := by
      unfold completion_rate
      rw [show countStatus
          [⟨"done", "User"⟩, ⟨"doing", "User"⟩, ⟨"todo", "User"⟩, ⟨"todo", "User"⟩]
          "done" = 1 from rfl,
        show List.length
          [(⟨"done", "User"⟩ : HTask), ⟨"doing", "User"⟩, ⟨"todo", "User"⟩, ⟨"todo", "User"⟩]
          = 4 from rfl]
      norm_num
    have ha : activity_rate
        [⟨"done", "User"⟩, ⟨"doing", "User"⟩, ⟨"todo", "User"⟩, ⟨"todo", "User"⟩] = 1 / 4 := by
      unfold activity_rate
      rw [show countStatus
          [⟨"done", "User"⟩, ⟨"doing", "User"⟩, ⟨"todo", "User"⟩, ⟨"todo", "User"⟩]
          "doing" = 1 from rfl,
        show countStatus
          [⟨"done", "User"⟩, ⟨"doing", "User"⟩, ⟨"todo", "User"⟩, ⟨"todo", "User"⟩]
          "review" = 0 from rfl,
        show List.length
          [(⟨"done", "User"⟩ : HTask), ⟨"doing", "User"⟩, ⟨"todo", "User"⟩, ⟨"todo", "User"⟩]
          = 4 from rfl]
      norm_num
    have r1 : roundB64 (1 / 4 : ℚ) = 1 / 4 := by
      rw [roundB64_eval (1 / 4) (-2) 4503599627370496 54 (by norm_num) (by norm_num)
        (by norm_num) (by norm_num) (by norm_num)
        (rne_eval_lt _ 4503599627370496 (by norm_num) (by norm_num))]
      norm_num
    have r2 : roundB64 (3 / 2 : ℚ) = 3 / 2 := by
      rw [roundB64_eval (3 / 2) 0 6755399441055744 52 (by norm_num) (by norm_num)
        (by norm_num) (by norm_num) (by norm_num)
        (rne_eval_lt _ 6755399441055744 (by norm_num) (by norm_num))]
      norm_num
    have r3 : roundB64 (1 : ℚ) = 1 := by
      rw [roundB64_eval 1 0 4503599627370496 52 (by norm_num) (by norm_num)
        (by norm_num) (by norm_num) (by norm_num)
        (rne_eval_lt _ 4503599627370496 (by norm_num) (by norm_num))]
      norm_num
    have r4 : roundB64 (5 / 2 : ℚ) = 5 / 2 := by
      rw [roundB64_eval (5 / 2) 1 5629499534213120 51 (by norm_num) (by norm_num)
        (by norm_num) (by norm_num) (by norm_num)
        (rne_eval_lt _ 5629499534213120 (by norm_num) (by norm_num))]
      norm_num
    have r5 : roundB64 (25 : ℚ) = 25 := by
      rw [roundB64_eval 25 4 7036874417766400 48 (by norm_num) (by norm_num)
        (by norm_num) (by norm_num) (by norm_num)
        (rne_eval_lt _ 7036874417766400 (by norm_num) (by norm_num))]
      norm_num
    unfold health_score health_bracket_f completion_rate_f activity_rate_f
    rw [hc, ha, r1, show (1 / 4 : ℚ) * 6 = 3 / 2 from by norm_num,
      show (1 / 4 : ℚ) * 4 = 1 from by norm_num, r2, r3,
      show (3 / 2 : ℚ) + 1 = 5 / 2 from by norm_num, r4,
      show (5 / 2 : ℚ) * 10 = 25 from by norm_num, r5]
    unfold pyInt
    rw [if_neg (by norm_num)]
    norm_num

/-- C4 witness: the hypotheses of `health_score_float_formula` discharged
at the singleton done task. -/
theorem health_score_float_formula_witness :
    ([(⟨"done", "User"⟩ : HTask)] ≠ []) ∧
    (health_score [⟨"done", "User"⟩] =
      min 10 (pyInt (roundB64 (roundB64
          (roundB64 (roundB64 ((countStatus [(⟨"done", "User"⟩ : HTask)] "done" : ℚ) /
              (([(⟨"done", "User"⟩ : HTask)].length : ℚ))) * 6) +
           roundB64 (roundB64
              (((countStatus [(⟨"done", "User"⟩ : HTask)] "doing" +
                  countStatus [(⟨"done", "User"⟩ : HTask)] "review" : Nat) : ℚ) /
                (([(⟨"done", "User"⟩ : HTask)].length : ℚ))) * 4)) * 10)))
    ∧ 0 ≤ health_score [⟨"done", "User"⟩]
    ∧ health_score [⟨"done", "User"⟩] ≤ 10
    ∧ health_score [⟨"done", "User"⟩, ⟨"doing", "User"⟩, ⟨"todo", "User"⟩, ⟨"todo", "User"⟩] =
        10) :=
  ⟨by decide, health_score_float_formula [⟨"done", "User"⟩] (by decide)⟩

/-- C5, counterexample: the claim asserts the bracketed term
`completion_rate*6 + activity_rate*4` is a fraction ≤ 1 for every
non-empty task list.  A single completed task already gives
`completion_rate = 1` and a bracketed term of 6. -/
theorem health_bracket_le_one_counterexample :
    ¬ (health_bracket [⟨"done", "User"⟩] ≤ 1) := by
  have hdone : countStatus [(⟨"done", "User"⟩ : HTask)] "done" = 1 := rfl
  have hdoing : countStatus [(⟨"done", "User"⟩ : HTask)] "doing" = 0 := rfl
  have hreview : countStatus [(⟨"done", "User"⟩ : HTask)] "review" = 0 := rfl
  unfold health_bracket completion_rate activity_rate
  rw [hdone, hdoing, hreview]
  norm_num

/-- C5, amended: for every non-empty task list the bracketed term of the
health-score formula is at most 6 (not at most 1): the done and
doing/review statuses are disjoint, so the two rates sum to at most 1 and
the term is bounded by its largest coefficient.  The `min(10, ·)` clamp is
therefore load-bearing, and the score is still an integer in [0,10]. -/
theorem health_bracket_le_six (tasks : List HTask) (h : tasks ≠ []) :
    health_bracket tasks ≤ 6
    ∧ 0 ≤ health_score tasks
    ∧ health_score tasks ≤ 10 := by
  refine ⟨?_, ?_, min_le_left _ _⟩
  · have hcount := countStatus_three_le tasks
    have hn : 0 < (tasks.length : ℚ) := by
      have : 0 < tasks.length := List.length_pos.mpr h
      exact_mod_cast this
    have hcast : (countStatus tasks "done" : ℚ) + (countStatus tasks "doing" : ℚ) +
        (countStatus tasks "review" : ℚ) ≤ (tasks.length : ℚ) := by
      exact_mod_cast hcount
    unfold health_bracket completion_rate activity_rate
    rw [div_mul_eq_mul_div, div_mul_eq_mul_div, div_add_div_same, div_le_iff₀ hn]
    push_cast
    have hg : (0 : ℚ) ≤ (countStatus tasks "doing" : ℚ) := by positivity
    have hr : (0 : ℚ) ≤ (countStatus tasks "review" : ℚ) := by positivity
    linarith
  · exact le_min (by norm_num)
      (pyInt_nonneg _ (roundB64_nonneg _
        (mul_nonneg (health_bracket_f_nonneg tasks) (by norm_num))))

/-- C5 witness: `health_bracket_le_six` discharged at a singleton todo
task. -/
theorem health_bracket_le_six_witness :
    ([(⟨"todo", "User"⟩ : HTask)] ≠ []) ∧
    (health_bracket [⟨"todo", "User"⟩] ≤ 6
     ∧ 0 ≤ health_score [⟨"todo", "User"⟩]
     ∧ health_score [⟨"todo", "User"⟩] ≤ 10) :=
  ⟨by decide, health_bracket_le_six [⟨"todo", "User"⟩] (by decide)⟩

/-- C6: when the combined lower-cased text matches no keyword of any of
the four domain sets, project decomposition emits exactly the 3-item
generic template (priorities 9,8,7) followed by the 2 common closing
tasks — 5 specs in total. -/
theorem generic_fallback_five_specs (title description : String)
    (h1 : anyKeyword auth_keywords (combined_text title description) = false)
    (h2 : anyKeyword api_keywords (combined_text title description) = false)
    (h3 : anyKeyword frontend_keywords (combined_text title description) = false)
    (h4 : anyKeyword database_keywords (combined_text title description) = false) :
    _generate_project_tasks_specs title description =
      _generate_generic_project_tasks title ++ common_project_tasks title
    ∧ (_generate_project_tasks_specs title description).length = 5
    ∧ (_generate_generic_project_tasks title).map TaskSpec.priority = [9, 8, 7] := by
  have he : _generate_project_tasks_specs title description =
      _generate_generic_project_tasks title ++ common_project_tasks title := by
    simp [_generate_project_tasks_specs, h1, h2, h3, h4]
  refine ⟨he, ?_, rfl⟩
  rw [he]
  rfl

/-- C6 witness: the hypotheses of `generic_fallback_five_specs`
discharged at a title matching no domain keyword. -/
theorem generic_fallback_five_specs_witness :
    (anyKeyword auth_keywords (combined_text "Zzz" "") = false
     ∧ anyKeyword api_keywords (combined_text "Zzz" "") = false
     ∧ anyKeyword frontend_keywords (combined_text "Zzz" "") = false
     ∧ anyKeyword database_keywords (combined_text "Zzz" "") = false) ∧
    (_generate_project_tasks_specs "Zzz" "" =
      _generate_generic_project_tasks "Zzz" ++ common_project_tasks "Zzz"
     ∧ (_generate_project_tasks_specs "Zzz" "").length = 5
     ∧ (_generate_generic_project_tasks "Zzz").map TaskSpec.priority = [9, 8, 7]) :=
  ⟨⟨by decide, by decide, by decide, by decide⟩,
   generic_fallback_five_specs "Zzz" "" (by decide) (by decide) (by decide) (by decide)⟩

/-- C7: `select_assignee` applies a case-insensitive substring precedence
on the combined text, first match winning: planning keywords yield the
User role, else orchestration keywords yield the Orchestrator role
(spelled "Archon" in the code), else implementation keywords yield the
automated-agent role (spelled "AI IDE Agent"), else User.  In particular
"Design API architecture" → User, "Implement OAuth flow" → automated
agent, "Coordinate team workflow" → Orchestrator, and "Design workflow",
which contains both a planning and an orchestration keyword, → User. -/
theorem select_assignee_precedence (title description : String) :
    roleOf (select_assignee title description) =
      some (if anyKeyword planning_keywords (combined_text title description) then Role.User
        else if anyKeyword orchestration_keywords (combined_text title description) then
          Role.Orchestrator
        else if anyKeyword implementation_keywords (combined_text title description) then
          Role.AutomatedAgent
        else Role.User)
    ∧ roleOf (select_assignee "Design API architecture" "") = some Role.User
    ∧ roleOf (select_assignee "Implement OAuth flow" "") = some Role.AutomatedAgent
    ∧ roleOf (select_assignee "Coordinate team workflow" "") = some Role.Orchestrator
    ∧ roleOf (select_assignee "Design workflow" "") = some Role.User := by
  refine ⟨?_, by decide, by decide, by decide, by decide⟩
  cases hp : anyKeyword planning_keywords (combined_text title description) <;>
    cases ho : anyKeyword orchestration_keywords (combined_text title description) <;>
      cases hi : anyKeyword implementation_keywords (combined_text title description) <;>
        simp [select_assignee, roleOf, hp, ho, hi]

/-- C8: a service-client call never raises to its caller (both calls are
total functions into envelopes) and performs no retry — the result depends
only on the outcome of the single first attempt; an HTTP/transport-layer
failure yields a success-false envelope whose error string identifies a
transport error ("HTTP error: ..."), and any other exception yields a
success-false envelope identifying an unexpected error
("Unexpected error: ..."). -/
theorem agents_client_no_retry_failure_envelopes (s t : Nat → CallOutcome)
    (h : s 0 = t 0) :
    call_document_agent s = call_document_agent t
    ∧ call_rag_agent s = call_rag_agent t
    ∧ (∀ m, call_document_agent (fun _ => CallOutcome.httpError m) =
        failEnvelope ("HTTP error: " ++ m))
    ∧ (∀ m, call_document_agent (fun _ => CallOutcome.exn m) =
        failEnvelope ("Unexpected error: " ++ m))
    ∧ (∀ m, call_rag_agent (fun _ => CallOutcome.httpError m) =
        failEnvelope ("HTTP error: " ++ m))
    ∧ (∀ m, call_rag_agent (fun _ => CallOutcome.exn m) =
        failEnvelope ("Unexpected error: " ++ m))
    ∧ (∀ m, truthy (dictGet [("success", JVal.bool false),
        ("error", JVal.str m), ("result", JVal.null)] "success" (JVal.bool false)) = false) := by
  refine ⟨?_, ?_, fun m => rfl, fun m => rfl, fun m => rfl, fun m => rfl, fun m => rfl⟩
  · unfold call_document_agent
    rw [h]
  · unfold call_rag_agent
    rw [h]

/-- C8 witness: `agents_client_no_retry_failure_envelopes` discharged at
a concrete attempt stream. -/
theorem agents_client_no_retry_failure_envelopes_witness :
    call_document_agent (fun _ => CallOutcome.httpError "boom") =
      failEnvelope ("HTTP error: " ++ "boom") :=
  (agents_client_no_retry_failure_envelopes
    (fun _ => CallOutcome.httpError "boom") (fun _ => CallOutcome.httpError "boom")
    rfl).2.2.1 "boom"

/-- C9: a remote response that parses to a non-object value is converted
into a failure message without any exception escaping (the `AttributeError`
raised by `.get` is caught by the operation's handler and rendered as an
error string), and a well-formed success-false envelope carrying an error
field surfaces that exact error message to the caller. -/
theorem remote_envelope_failure_handling (v : JVal) (hv : v.isObj = false)
    (e title : String) (n : Nat) :
    create_project_with_tasks title v n =
      "Error creating project: " ++ noAttrMsg v "get"
    ∧ create_project_with_tasks title
        (JVal.obj [("success", JVal.bool false), ("error", JVal.str e)]) n =
        "Failed to create project: " ++ e
    ∧ (update_task_status "a" "done" (listOkResp [⟨"t1", "a"⟩]) v).1 =
        "Error updating task status: " ++ noAttrMsg v "get"
    ∧ (update_task_status "a" "done" (listOkResp [⟨"t1", "a"⟩])
        (JVal.obj [("success", JVal.bool false), ("error", JVal.str e)])).1 =
        "Failed to update task status: " ++ e := by
  refine ⟨?_, rfl, ?_, rfl⟩
  · cases v with
    | obj fields => simp [JVal.isObj] at hv
    | null => rfl
    | bool b => rfl
    | num m => rfl
    | str s => rfl
    | arr xs => rfl
  · cases v with
    | obj fields => simp [JVal.isObj] at hv
    | null => rfl
    | bool b => rfl
    | num m => rfl
    | str s => rfl
    | arr xs => rfl

/-- C9 witness: `remote_envelope_failure_handling` discharged at a
non-object (array) response. -/
theorem remote_envelope_failure_handling_witness :
    (JVal.arr []).isObj = false ∧
    create_project_with_tasks "P" (JVal.arr []) 0 =
      "Error creating project: " ++ noAttrMsg (JVal.arr []) "get" :=
  ⟨rfl, (remote_envelope_failure_handling (JVal.arr []) rfl "boom" "P" 0).1⟩

/-- On a well-formed task list the matching comprehension reduces to a
filter over the listed tasks. -/
theorem buildMatching_map (ttl : String) (tasks : List StoreTask) :
    buildMatching ttl (tasks.map storeTaskJ) =
      Except.ok ((tasks.filter (fun t => strContains (lowerStr t.title) ttl)).map storeTaskJ) := by
  induction tasks with
  | nil => rfl
  | cons t ts ih =>
      have hm : matchTitle ttl (storeTaskJ t) =
          Except.ok (strContains (lowerStr t.title) ttl) := rfl
      simp only [List.map_cons, buildMatching, hm, ih, List.filter_cons]
      cases hb : strContains (lowerStr t.title) ttl <;> simp [hb]

/-- C10: `update_task_status` with a valid status locates the target task
by a case-insensitive substring test of the given title against each
listed task's title; when matches exist exactly one update call is issued,
for the first matching task in the store's returned order; when no listed
title contains the text, no update call is issued (every task is left
unchanged) and a "No task found" message is returned. -/
theorem update_task_status_first_match (task_title new_status : String)
    (tasks : List StoreTask) (updateResp : JVal)
    (hv : valid_statuses.contains new_status = true) :
    (tasks.filter (fun t => strContains (lowerStr t.title) (lowerStr task_title)) = [] →
      update_task_status task_title new_status (listOkResp tasks) updateResp =
        ("No task found matching \x27" ++ task_title ++ "\x27 in this project.", []))
    ∧ (∀ (t : StoreTask) (rest : List StoreTask),
        tasks.filter (fun t => strContains (lowerStr t.title) (lowerStr task_title)) =
          t :: rest →
        (update_task_status task_title new_status (listOkResp tasks) updateResp).2 =
          [⟨JVal.str t.id, [("status", new_status)]⟩]) := by
  have hred : update_task_status task_title new_status (listOkResp tasks) updateResp =
      (match Except.ok ((tasks.filter
          (fun t => strContains (lowerStr t.title) (lowerStr task_title))).map storeTaskJ) with
       | Except.error e => ("Error updating task status: " ++ e, [])
       | Except.ok [] =>
           ("No task found matching \x27" ++ task_title ++ "\x27 in this project.", [])
       | Except.ok (task :: _) =>
           let fs := match task with | JVal.obj fs => fs | _ => []
           let call : UpdateCall := ⟨dictGet fs "id" JVal.null, [("status", new_status)]⟩
           match updateResp with
           | JVal.obj uf =>
               if truthy (dictGet uf "success" (JVal.bool false)) then
                 ("✅ Updated \x27" ++ pyStr (dictGet fs "title" JVal.null) ++
                    "\x27 status to " ++ statusEmoji new_status ++ " " ++ new_status,
                  [call])
               else
                 ("Failed to update task status: " ++
                    pyStr (dictGet uf "error" (JVal.str "Unknown error")),
                  [call])
           | v => ("Error updating task status: " ++ noAttrMsg v "get", [call])) := by
    unfold update_task_status
    rw [hv, ← buildMatching_map (lowerStr task_title) tasks]
    rfl
  constructor
  · intro hf
    rw [hred, hf]
    rfl
  · intro t rest hf
    rw [hred, hf]
    cases updateResp with
    | obj uf =>
        simp only [List.map_cons, storeTaskJ, dictGet, List.lookup]
        cases htr : truthy ((List.lookup "success" uf).getD (JVal.bool false)) <;> simp [htr]
    | null => rfl
    | bool b => rfl
    | num m => rfl
    | str s => rfl
    | arr xs => rfl

/-- C10 witness: `update_task_status_first_match` discharged at a store
with two matching tasks; only the first gets the single update call. -/
theorem update_task_status_first_match_witness :
    valid_statuses.contains "doing" = true ∧
    (update_task_status "design" "doing"
        (listOkResp [⟨"id1", "Design login page"⟩, ⟨"id2", "Build API"⟩,
          ⟨"id3", "Redesign header"⟩])
        (JVal.obj [("success", JVal.bool true)])).2 =
      [⟨JVal.str "id1", [("status", "doing")]⟩] :=
  ⟨rfl,
   (update_task_status_first_match "design" "doing"
      [⟨"id1", "Design login page"⟩, ⟨"id2", "Build API"⟩, ⟨"id3", "Redesign header"⟩]
      (JVal.obj [("success", JVal.bool true)]) rfl).2
     ⟨"id1", "Design login page"⟩ [⟨"id3", "Redesign header"⟩] (by decide)⟩
